import Mathlib

/-!
Shallow embedding of two dataset classes of the DL-Art-School repository:

* `codes/data/audio/grand_conjoined_dataset.py` — `GrandConjoinedDataset`, a
  virtual dataset joining an unpaired text corpus, an unpaired speech corpus
  and a paired speech+text corpus.
* `codes/data/Downsample_dataset.py` — `DownsampleDataset`, which reads HQ/LQ
  image pairs and remaps them so an upsampling training loop runs in reverse.

Python dictionaries returned by `__getitem__` are embedded as association
lists `List (String × Value)`; fallible operations (list indexing, text
decoding, tokenization, resolution parsing, assertions) return `Option` /
`Except`.  Tensors are embedded as `List Int` (1-D) or `List (List Int)`
(2-D, channels × samples); torch image transforms whose pixel semantics live
in repository modules outside the two source files are embedded as
uninterpreted constructors of a symbolic image-expression type, which keeps
data provenance (which file an output was derived from) fully precise.
-/

namespace DLAS

/-! ## `grand_conjoined_dataset.py` -/

/-- Python `clamp(x, minimum, maximum) = max(minimum, min(x, maximum))` from
`grand_conjoined_dataset.py`. -/
def clamp (x minimum maximum : Int) : Int :=
  max minimum (min x maximum)

/-- A value stored in a returned record (Python dict): an audio tensor, a
length tensor, a string, or a token sequence. -/
inductive Value where
  | audio : List (List Int) → Value
  | vlen : Int → Value
  | vstr : String → Value
  | toks : List Int → Value
deriving DecidableEq

/-- Shape `wav.shape[-1]` of a 2-D tensor embedded as channels × samples. -/
def lastDim (a : List (List Int)) : Nat :=
  match a with
  | [] => 0
  | row :: _ => row.length

/-- The dict built by `fetch_snt_at` in collate mode from the tuple
`(tseq, wav, path, text, cond)` yielded by the paired speech+text dataset
(conditioning is disabled, so `cond` is dropped). -/
structure SntDict where
  real_text : String
  padded_text : List Int
  text_lengths : Nat
  wav : List (List Int)
  wav_lengths : Nat
  filenames : String
deriving DecidableEq

/-- An item of the paired speech+text sub-dataset: a raw tuple
`(tseq, wav, path, text, cond)` when `needs_collate` is set, or an
already-assembled dict otherwise (the upstream `TextWavLoader` lives outside
the two embedded source files, so only the shape of its items matters). -/
inductive PairedItem where
  | tup : List Int → List (List Int) → String → String → PairedItem
  | dict : SntDict → PairedItem
deriving DecidableEq

/-- An item of the unpaired speech sub-dataset: the `clip`, `clip_lengths`
and `path` entries used by `__getitem__`. -/
structure SpeechItem where
  clip : List (List Int)
  clip_lengths : Int
  path : String
deriving DecidableEq

/-- State of a constructed `GrandConjoinedDataset`.  The three sub-datasets
are embedded as lists of their items; a text item is `none` when fetching or
decoding it raises.  `tokenizer` embeds `self.speech_and_text.get_text`
(tokenization code lives outside the embedded files), returning `none` when
tokenization raises. -/
structure GrandConjoinedDataset where
  only_paired : Bool
  collate : Bool
  speech_and_text : List PairedItem
  speech : List SpeechItem
  text : List (Option String)
  tokenizer : String → Option (List Int)
  max_paired_audio_length : Nat
  max_paired_text_length : Nat
  max_solo_audio_length : Nat
  max_solo_text_length : Nat

namespace GrandConjoinedDataset

/-- Truncation / zero-padding of a token sequence to `max_solo_text_length`
as in `fetch_text_at`: `padding_required = L - tok.shape[0]`; truncate when
negative, right-pad with zeros when positive. -/
def padTrunc (L : Nat) (tok : List Int) : List Int :=
  let padding_required : Int := (L : Int) - (tok.length : Int)
  if padding_required < 0 then tok.take L
  else if padding_required > 0 then tok ++ List.replicate (L - tok.length) 0
  else tok

/-- One attempt of the `try:` body of `fetch_text_at` at index `i`: fetch
`text[i % len(text)]`, reject it if it is un-decodable or contains `'*'`,
tokenize it (which may fail), then truncate/pad the tokens.  `none` means the
attempt raised and the `except:` branch runs. -/
def fetchOne (ds : GrandConjoinedDataset) (i : Nat) : Option (String × List Int) :=
  match ds.text.get? (i % ds.text.length) with
  | none => none
  | some none => none
  | some (some txt) =>
    if '*' ∈ txt.data then none
    else
      match ds.tokenizer txt with
      | none => none
      | some tok => some (txt, padTrunc ds.max_solo_text_length tok)

/-- Method `fetch_text_at`: try the sample at `i`; on failure retry at
`(i+1) % len(text)`.  The Python recursion is unbounded; `fuel` bounds the
number of attempts, and `none` means the fuel ran out before an acceptable
sample was reached. -/
def fetchTextAt (ds : GrandConjoinedDataset) : Nat → Nat → Option (String × List Int)
  | 0, _ => none
  | fuel + 1, i =>
    match fetchOne ds i with
    | some r => some r
    | none => fetchTextAt ds fuel ((i + 1) % ds.text.length)

/-- Method `fetch_snt_at`: index the paired dataset at `i % len(speech_and_text)`;
with collation on, repack the tuple into a dict (`wav_lengths` is
`wav.shape[-1]`), otherwise return the fetched dict.  A shape mismatch
between the item and the collate flag raises, hence `none`. -/
def fetch_snt_at (ds : GrandConjoinedDataset) (i : Nat) : Option SntDict :=
  match ds.speech_and_text.get? (i % ds.speech_and_text.length) with
  | none => none
  | some item =>
    if ds.collate then
      match item with
      | .tup tseq wav path text =>
        some { real_text := text, padded_text := tseq, text_lengths := tseq.length,
               wav := wav, wav_lengths := lastDim wav, filenames := path }
      | .dict _ => none
    else
      match item with
      | .dict d => some d
      | .tup _ _ _ _ => none

/-- The record returned by `__getitem__` when `only_paired` is set. -/
def pairedOnlyRecord (snt : SntDict) : List (String × Value) :=
  [("paired_audio", .audio snt.wav),
   ("paired_audio_lengths", .vlen snt.wav_lengths),
   ("paired_text", .vstr snt.real_text),
   ("paired_text_tokens", .toks snt.padded_text),
   ("paired_file", .vstr snt.filenames),
   ("speech_audio", .audio snt.wav),
   ("speech_audio_lengths", .vlen snt.wav_lengths),
   ("speech_file", .vstr snt.filenames),
   ("text_text", .vstr snt.real_text),
   ("text_tokens", .toks snt.padded_text)]

/-- The record returned by `__getitem__` in full mode: the unpaired clip is
truncated along its last dimension to `max_solo_audio_length` and its length
is clamped to `[0, max_solo_audio_length]`. -/
def fullRecord (ds : GrandConjoinedDataset) (snt : SntDict)
    (txt : String) (txt_tok : List Int) (sp : SpeechItem) : List (String × Value) :=
  [("paired_audio", .audio snt.wav),
   ("paired_audio_lengths", .vlen snt.wav_lengths),
   ("paired_text", .vstr snt.real_text),
   ("paired_text_tokens", .toks snt.padded_text),
   ("paired_file", .vstr snt.filenames),
   ("speech_audio", .audio (sp.clip.map (fun row => row.take ds.max_solo_audio_length))),
   ("speech_audio_lengths", .vlen (clamp sp.clip_lengths 0 ds.max_solo_audio_length)),
   ("speech_file", .vstr sp.path),
   ("text_text", .vstr txt),
   ("text_tokens", .toks txt_tok)]

/-- Method `__getitem__(i)`: fetch the paired sample at `i`; in paired-only mode
build the record from it alone, otherwise also fetch text (retrying, bounded
here by `fuel`) at `i % len(text)` and the unpaired clip at
`i % len(speech)`. -/
def getItem (ds : GrandConjoinedDataset) (fuel i : Nat) : Option (List (String × Value)) :=
  match ds.fetch_snt_at i with
  | none => none
  | some snt =>
    if ds.only_paired then some (pairedOnlyRecord snt)
    else
      match ds.fetchTextAt fuel (i % ds.text.length) with
      | none => none
      | some (txt, txt_tok) =>
        match ds.speech.get? (i % ds.speech.length) with
        | none => none
        | some sp => some (fullRecord ds snt txt txt_tok sp)

/-- Method `__len__`: the paired dataset's length in paired-only mode, otherwise the
maximum of the three sub-dataset lengths. -/
def dlen (ds : GrandConjoinedDataset) : Nat :=
  if ds.only_paired then ds.speech_and_text.length
  else max ds.speech.length (max ds.speech_and_text.length ds.text.length)

end GrandConjoinedDataset

/-! ## `Downsample_dataset.py` -/

/-- Symbolic image expressions.  `read` is `util.read_img` of a path (with an
optional lmdb resolution); the other constructors are the transforms applied
by `DownsampleDataset.__getitem__`.  Their pixel semantics live in repository
modules outside the embedded source files (`data.util`, cv2, PIL,
torchvision), so they are uninterpreted here; the embedding tracks exactly
which transforms are applied to which source image. -/
inductive ImgExpr where
  | read : String → Option (List Nat) → ImgExpr
  | modcrop : Nat → ImgExpr → ImgExpr
  | channel_convert : String → ImgExpr → ImgExpr
  | crop : Nat → Nat → Nat → ImgExpr → ImgExpr
  | resize : Nat → ImgExpr → ImgExpr
  | augment : Bool → Bool → ImgExpr → ImgExpr
  | cvtColorBGR2RGB : ImgExpr → ImgExpr
  | toPILu8 : ImgExpr → ImgExpr
  | jpeg : Nat → ImgExpr → ImgExpr
  | resizeDown : Nat → Nat → ImgExpr → ImgExpr
  | to_tensor : ImgExpr → ImgExpr
  | fromNumpyTranspose : ImgExpr → ImgExpr
deriving DecidableEq

/-- The path of the `read` leaf an image expression was derived from. -/
def ImgExpr.srcPath : ImgExpr → String
  | .read p _ => p
  | .modcrop _ e => e.srcPath
  | .channel_convert _ e => e.srcPath
  | .crop _ _ _ e => e.srcPath
  | .resize _ e => e.srcPath
  | .augment _ _ e => e.srcPath
  | .cvtColorBGR2RGB e => e.srcPath
  | .toPILu8 e => e.srcPath
  | .jpeg _ e => e.srcPath
  | .resizeDown _ _ e => e.srcPath
  | .to_tensor e => e.srcPath
  | .fromNumpyTranspose e => e.srcPath

/-- A value of the dict returned by `DownsampleDataset.__getitem__`: an image
tensor or a path string. -/
inductive DVal where
  | img : ImgExpr → DVal
  | path : String → DVal
deriving DecidableEq

/-- State of a constructed `DownsampleDataset`: the option fields read in
`__init__` / `__getitem__` and the path/size lists produced by
`util.get_image_paths` (sizes are the `"H_W"` strings of the lmdb metadata;
they are unused for other data types). -/
structure DownsampleDataset where
  data_type : String
  doCrop : Bool
  paths_GT : List String
  sizes_GT : List String
  paths_LQ : List String
  sizes_LQ : List String
  data_sz_mismatch_ok : Bool
  phase : String
  scale : Nat
  target_size : Nat
  color : Option String
  use_flip : Bool
  use_rot : Bool
  use_compression_artifacts : Bool
deriving DecidableEq

namespace DownsampleDataset

/-- The assertions of `DownsampleDataset.__init__`, run after
`util.get_image_paths` has produced the path lists: GT paths must be
non-empty, LQ paths must be non-empty, and unless `mismatched_Data_OK` is set
the two lists must have equal length.  A failed assertion raises. -/
def init (ds : DownsampleDataset) : Except String DownsampleDataset :=
  if ds.paths_GT = [] then .error "Error: GT path is empty."
  else if ds.paths_LQ = [] then .error "LQ is required for downsampling."
  else if ds.data_sz_mismatch_ok = false ∧ ds.paths_LQ.length ≠ ds.paths_GT.length then
    .error "GT and LQ datasets have different number of images"
  else .ok ds

/-- Parsing `[int(s) for s in sizes[index].split('_')]`. -/
def parseResolution (s : String) : Option (List Nat) :=
  (s.split (fun c => c = '_')).mapM String.toNat?

/-- The `resolution` argument passed to `util.read_img`: for lmdb data the
size string at the RAW index `i` is parsed (raising when `i` is out of bounds
or the string does not parse), otherwise `None`.  The outer `Option` is the
possible raise, the inner one the `None`-vs-list value. -/
def resolutionFor (ds : DownsampleDataset) (sizes : List String) (i : Nat) :
    Option (Option (List Nat)) :=
  if ds.data_type = "lmdb" then
    match sizes.get? i with
    | none => none
    | some s =>
      match parseResolution s with
      | none => none
      | some r => some (some r)
  else some none

/-- Random draws made during one `__getitem__` call: the crop offsets, the
flip/rotate coin tosses inside `util.augment`, and the JPEG quality factor. -/
structure ItemRand where
  rnd_h : Nat
  rnd_w : Nat
  flip : Bool
  rot : Bool
  qf : Nat
deriving DecidableEq

/-- Data-dependent facts about the decoded images that the symbolic embedding
cannot compute (pixel arrays are outside the model): whether the train-phase
size assertion `H >= GT_size and W >= GT_size` holds, whether
`img_GT.shape[2] == 3` at the BGR→RGB step, and the `H, W` of `img_GT` at the
downsampling step. -/
structure ShapeFacts where
  trainAssertOk : Bool
  gtChannels3 : Bool
  H : Nat
  W : Nat
deriving DecidableEq

/-- Image `img_GT` after reading: `modcrop` outside the train phase, then optional
color-space conversion (`if self.opt['color']`). -/
def gtPre (ds : DownsampleDataset) (GT_path : String) (res : Option (List Nat)) : ImgExpr :=
  let e0 := ImgExpr.read GT_path res
  let e1 := if ds.phase ≠ "train" then ImgExpr.modcrop ds.scale e0 else e0
  match ds.color with
  | some c => ImgExpr.channel_convert c e1
  | none => e1

/-- The train-phase branch on `(img_LQ, img_GT)`: random crop or resize to
`(LQ_size, GT_size)`, then `util.augment` with the flip/rot draws. -/
def trainPair (ds : DownsampleDataset) (r : ItemRand) (lq gt : ImgExpr) : ImgExpr × ImgExpr :=
  let GT_size := ds.target_size * ds.scale
  let LQ_size := GT_size / ds.scale
  let cropped :=
    if ds.doCrop then
      (ImgExpr.crop r.rnd_h r.rnd_w LQ_size lq,
       ImgExpr.crop (r.rnd_h * ds.scale) (r.rnd_w * ds.scale) GT_size gt)
    else (ImgExpr.resize LQ_size lq, ImgExpr.resize GT_size gt)
  (ImgExpr.augment (ds.use_flip && r.flip) (ds.use_rot && r.rot) cropped.1,
   ImgExpr.augment (ds.use_flip && r.flip) (ds.use_rot && r.rot) cropped.2)

/-- The tail of `__getitem__` after both images are read: train-phase
crop/resize + augmentation (raising if the size assertion fails), BGR→RGB
when `img_GT` has three channels, uint8/PIL conversion, optional JPEG
corruption, downsampling of the HQ image, tensor conversion, and the final
dict in which the keys are deliberately swapped: `'LQ'` (the model input)
holds the HQ-derived tensor, `'GT'` (the expected output) holds the LQ
image, and `'PIX'` holds the HQ image downsampled by `scale`. -/
def buildRec (ds : DownsampleDataset) (r : ItemRand) (o : ShapeFacts)
    (GT_path LQ_path : String) (gt2 lq0 : ImgExpr) : Option (List (String × DVal)) :=
  if ds.phase = "train" ∧ o.trainAssertOk = false then none
  else
    let mid := if ds.phase = "train" then trainPair ds r lq0 gt2 else (lq0, gt2)
    let cvt := if o.gtChannels3
      then (ImgExpr.cvtColorBGR2RGB mid.2, ImgExpr.cvtColorBGR2RGB mid.1)
      else (mid.2, mid.1)
    let gt5 := ImgExpr.toPILu8 cvt.1
    let gt6 := if ds.use_compression_artifacts then ImgExpr.jpeg r.qf gt5 else gt5
    let down := ImgExpr.resizeDown (o.H / ds.scale) (o.W / ds.scale) gt6
    some [("LQ", DVal.img (ImgExpr.to_tensor gt6)),
          ("GT", DVal.img (ImgExpr.fromNumpyTranspose cvt.2)),
          ("PIX", DVal.img (ImgExpr.to_tensor down)),
          ("LQ_path", DVal.path LQ_path),
          ("GT_path", DVal.path GT_path)]

/-- Method `__getitem__(index)`: the GT path is looked up at
`index % len(paths_GT)` and the LQ path at `index % len(paths_LQ)`, while the
lmdb size lists are indexed with the RAW `index` (via `resolutionFor`); then
the image pipeline of `buildRec` runs. -/
def getItem (ds : DownsampleDataset) (r : ItemRand) (o : ShapeFacts) (index : Nat) :
    Option (List (String × DVal)) :=
  match ds.paths_GT.get? (index % ds.paths_GT.length) with
  | none => none
  | some GT_path =>
    match resolutionFor ds ds.sizes_GT index with
    | none => none
    | some resGT =>
      match ds.paths_LQ.get? (index % ds.paths_LQ.length) with
      | none => none
      | some LQ_path =>
        match resolutionFor ds ds.sizes_LQ index with
        | none => none
        | some resLQ =>
          buildRec ds r o GT_path LQ_path (gtPre ds GT_path resGT) (ImgExpr.read LQ_path resLQ)

/-- Method `__len__`: the maximum of the two path-list lengths. -/
def dlen (ds : DownsampleDataset) : Nat :=
  max ds.paths_GT.length ds.paths_LQ.length

end DownsampleDataset

/-! ## Concrete sample datasets used by witnesses -/

/-- A small full-mode (`only_paired = False`) `GrandConjoinedDataset`: one
paired sample, two unpaired clips, a two-entry text corpus whose first entry
contains the disallowed `'*'`, and a tokenizer mapping a string to the
singleton list of its length. -/
def Wds : GrandConjoinedDataset :=
  { only_paired := false
    collate := true
    speech_and_text := [.tup [1] [[2, 3]] "p.wav" "hello"]
    speech := [{ clip := [[4, 5, 6]], clip_lengths := 3, path := "s0.wav" },
               { clip := [[7]], clip_lengths := 1, path := "s1.wav" }]
    text := [some "a*b", some "ok"]
    tokenizer := fun s => some [(s.length : Int)]
    max_paired_audio_length := 100
    max_paired_text_length := 10
    max_solo_audio_length := 2
    max_solo_text_length := 4 }

/-- The record `Wds.getItem 2 0` evaluates to. -/
def WdsRec0 : List (String × Value) :=
  [("paired_audio", .audio [[2, 3]]),
   ("paired_audio_lengths", .vlen 2),
   ("paired_text", .vstr "hello"),
   ("paired_text_tokens", .toks [1]),
   ("paired_file", .vstr "p.wav"),
   ("speech_audio", .audio [[4, 5]]),
   ("speech_audio_lengths", .vlen 2),
   ("speech_file", .vstr "s0.wav"),
   ("text_text", .vstr "ok"),
   ("text_tokens", .toks [2, 0, 0, 0])]

/-! ## Claims about `GrandConjoinedDataset` -/

namespace GrandConjoinedDataset

/-- C1: in full mode (the configuration with three underlying datasets), the
length of a `GrandConjoinedDataset` equals the maximum of the lengths of the
unpaired text corpus, the unpaired speech corpus, and the paired speech+text
corpus. -/
theorem len_is_max_of_three (ds : GrandConjoinedDataset) (h : ds.only_paired = false) :
    ds.dlen = max ds.text.length (max ds.speech.length ds.speech_and_text.length) := by
  simp only [dlen, h, Bool.false_eq_true, if_false]
  omega

/-- C1 witness: the sample dataset `Wds` (corpus sizes 2, 2 and 1). -/
theorem len_is_max_of_three_witness :
    Wds.only_paired = false ∧
      Wds.dlen = max Wds.text.length (max Wds.speech.length Wds.speech_and_text.length) :=
  ⟨rfl, len_is_max_of_three Wds rfl⟩

/-- C2: every record returned by `__getitem__` has exactly the fixed key
sequence below, identical in the paired-only and the full branch. -/
theorem getItem_fixed_keys (ds : GrandConjoinedDataset) (fuel i : Nat)
    (r : List (String × Value)) (h : ds.getItem fuel i = some r) :
    r.map Prod.fst =
      ["paired_audio", "paired_audio_lengths", "paired_text", "paired_text_tokens",
       "paired_file", "speech_audio", "speech_audio_lengths", "speech_file",
       "text_text", "text_tokens"] := by
  simp only [getItem] at h
  split at h
  · exact absurd h (by simp)
  · split at h
    · cases h
      simp [pairedOnlyRecord]
    · split at h
      · exact absurd h (by simp)
      · split at h
        · exact absurd h (by simp)
        · cases h
          simp [fullRecord]

/-- C2 witness: `Wds.getItem 2 0` returns a record with the fixed keys. -/
theorem getItem_fixed_keys_witness :
    Wds.getItem 2 0 = some WdsRec0 ∧
      WdsRec0.map Prod.fst =
        ["paired_audio", "paired_audio_lengths", "paired_text", "paired_text_tokens",
         "paired_file", "speech_audio", "speech_audio_lengths", "speech_file",
         "text_text", "text_tokens"] :=
  ⟨by decide, getItem_fixed_keys Wds 2 0 WdsRec0 (by decide)⟩

/-- A successful attempt forces the text corpus to be non-empty (on an empty
corpus every attempt fails). -/
theorem fetchOne_text_ne_nil {ds : GrandConjoinedDataset} {i : Nat}
    {r : String × List Int} (h : ds.fetchOne i = some r) : ds.text ≠ [] := by
  intro hnil
  simp [fetchOne, hnil] at h

/-- Attempts via `fetchOne` only depend on the attempt index modulo the corpus length. -/
theorem fetchOne_congr {ds : GrandConjoinedDataset} {i j : Nat}
    (h : i % ds.text.length = j % ds.text.length) : ds.fetchOne i = ds.fetchOne j := by
  simp only [fetchOne, h]

/-- Pre-reducing the start index modulo the corpus length does not change an
attempt `c` steps later. -/
theorem fetchOne_mod_add (ds : GrandConjoinedDataset) (x c : Nat) :
    ds.fetchOne (x % ds.text.length + c) = ds.fetchOne (x + c) :=
  fetchOne_congr (by rw [Nat.mod_add_mod])

/-- Characterization of a successful `fetchTextAt` run: the result is the
first acceptable attempt reached from the start index, all earlier attempts
having failed. -/
theorem fetchTextAt_spec (ds : GrandConjoinedDataset) :
    ∀ fuel i r, ds.fetchTextAt fuel i = some r →
      ∃ k, k < fuel ∧ ds.fetchOne (i + k) = some r ∧
        ∀ j, j < k → ds.fetchOne (i + j) = none := by
  intro fuel
  induction fuel with
  | zero => intro i r h; simp [fetchTextAt] at h
  | succ fuel ih =>
    intro i r h
    cases hf : ds.fetchOne i with
    | some r0 =>
      simp only [fetchTextAt, hf] at h
      cases h
      exact ⟨0, Nat.succ_pos _, by simpa using hf, fun j hj => absurd hj (Nat.not_lt_zero j)⟩
    | none =>
      simp only [fetchTextAt, hf] at h
      obtain ⟨k, hk, hsome, hfailall⟩ := ih _ r h
      refine ⟨k + 1, Nat.succ_lt_succ hk, ?_, ?_⟩
      · rw [show i + (k + 1) = i + 1 + k by omega, ← fetchOne_mod_add ds (i + 1) k]
        exact hsome
      · intro j hj
        cases j with
        | zero => simpa using hf
        | succ j' =>
          rw [show i + (j' + 1) = i + 1 + j' by omega, ← fetchOne_mod_add ds (i + 1) j']
          exact hfailall j' (by omega)

/-- If some attempt within the fuel budget succeeds, `fetchTextAt` returns a
sample. -/
theorem fetchTextAt_some_of_exists (ds : GrandConjoinedDataset) :
    ∀ fuel i, (∃ k, k < fuel ∧ (ds.fetchOne (i + k)).isSome) →
      (ds.fetchTextAt fuel i).isSome := by
  intro fuel
  induction fuel with
  | zero => rintro i ⟨k, hk, _⟩; omega
  | succ fuel ih =>
    rintro i ⟨k, hk, hsome⟩
    cases hf : ds.fetchOne i with
    | some r0 => simp [fetchTextAt, hf]
    | none =>
      simp only [fetchTextAt, hf]
      cases k with
      | zero => rw [Nat.add_zero, hf] at hsome; simp at hsome
      | succ k' =>
        apply ih
        refine ⟨k', by omega, ?_⟩
        rw [fetchOne_mod_add ds (i + 1) k', show i + 1 + k' = i + (k' + 1) by omega]
        exact hsome

/-- From any start index, some attempt within one full pass over the corpus
lands on any given corpus position. -/
theorem fetchOne_reach (ds : GrandConjoinedDataset) {j : Nat}
    (hj : j < ds.text.length) (i : Nat) :
    ∃ k, k < ds.text.length ∧ ds.fetchOne (i + k) = ds.fetchOne j := by
  have hn0 : 0 < ds.text.length := lt_of_le_of_lt (Nat.zero_le j) hj
  set n := ds.text.length with hn
  refine ⟨(j + n - i % n) % n, Nat.mod_lt _ hn0, fetchOne_congr ?_⟩
  have hm : i % n < n := Nat.mod_lt _ hn0
  have hle : i % n ≤ i := Nat.mod_le i n
  have hdm := Nat.div_add_mod i n
  rw [Nat.add_mod_mod]
  have hsplit : i + (j + n - i % n) = (i - i % n) + (j + n) := by omega
  rw [hsplit]
  have hdvd : i - i % n = n * (i / n) := by omega
  rw [hdvd, Nat.mul_add_mod, Nat.add_mod_right]

/-- C3: when the attempt at index `i` fails (un-decodable text, a `'*'`
character, or failed tokenization), `fetch_text_at` does not raise: it
retries at `(i+1) % len(text)`, and whatever it returns is the first
acceptable sample reached from `i`. -/
theorem fetch_text_retries_at_next_index (ds : GrandConjoinedDataset) (i fuel : Nat)
    (hfail : ds.fetchOne i = none) :
    ds.fetchTextAt (fuel + 1) i = ds.fetchTextAt fuel ((i + 1) % ds.text.length) ∧
    ∀ r, ds.fetchTextAt (fuel + 1) i = some r →
      ∃ k, 0 < k ∧ k ≤ fuel ∧ ds.fetchOne (i + k) = some r ∧
        ∀ j, j < k → ds.fetchOne (i + j) = none := by
  refine ⟨by simp [fetchTextAt, hfail], ?_⟩
  intro r h
  obtain ⟨k, hk, hsome, hfailall⟩ := fetchTextAt_spec ds (fuel + 1) i r h
  have hk0 : 0 < k := by
    rcases Nat.eq_zero_or_pos k with h0 | h0
    · subst h0; rw [Nat.add_zero, hfail] at hsome; cases hsome
    · exact h0
  exact ⟨k, hk0, by omega, hsome, hfailall⟩

/-- C3 witness: in `Wds` the attempt at index 0 fails (the text contains
`'*'`), and the retry chain starting there returns the sample at index 1. -/
theorem fetch_text_retries_at_next_index_witness :
    Wds.fetchOne 0 = none ∧
      (Wds.fetchTextAt 2 0 = Wds.fetchTextAt 1 ((0 + 1) % Wds.text.length) ∧
        ∀ r, Wds.fetchTextAt 2 0 = some r →
          ∃ k, 0 < k ∧ k ≤ 1 ∧ Wds.fetchOne (0 + k) = some r ∧
            ∀ j, j < k → Wds.fetchOne (0 + j) = none) :=
  ⟨by decide, fetch_text_retries_at_next_index Wds 0 1 (by decide)⟩

/-- C5: if some corpus position yields an acceptable sample, then from every
start index `fetch_text_at` succeeds within one full pass over the corpus
(fuel `len(text)`); if no position is acceptable, the retry chain never
returns, whatever the fuel. -/
theorem fetch_text_one_pass_or_divergent (ds : GrandConjoinedDataset) :
    ((∃ j, j < ds.text.length ∧ (ds.fetchOne j).isSome) →
      ∀ i, (ds.fetchTextAt ds.text.length i).isSome) ∧
    ((∀ j, ds.fetchOne j = none) → ∀ fuel i, ds.fetchTextAt fuel i = none) := by
  constructor
  · rintro ⟨j, hj, hsome⟩ i
    obtain ⟨k, hk, heq⟩ := fetchOne_reach ds hj i
    exact fetchTextAt_some_of_exists ds _ i ⟨k, hk, by rw [heq]; exact hsome⟩
  · intro hall fuel
    induction fuel with
    | zero => intro i; simp [fetchTextAt]
    | succ fuel ih =>
      intro i
      simp only [fetchTextAt, hall i]
      exact ih _

/-- C5 witness: in `Wds` position 1 is acceptable, so from start index 0 the
search succeeds within fuel `len(text) = 2`. -/
theorem fetch_text_one_pass_or_divergent_witness :
    (Wds.fetchTextAt Wds.text.length 0).isSome :=
  (fetch_text_one_pass_or_divergent Wds).1 ⟨1, by decide, by decide⟩ 0

/-- Truncation/zero-padding always produces exactly the target length. -/
theorem padTrunc_length (L : Nat) (t : List Int) : (padTrunc L t).length = L := by
  simp only [padTrunc]
  split
  · rename_i h
    simp only [List.length_take]
    omega
  · split
    · rename_i h h2
      simp only [List.length_append, List.length_replicate]
      omega
    · rename_i h h2
      omega

/-- C9: every sample `fetch_text_at` returns carries a token sequence of
length exactly `max_solo_text_length` (longer tokenizations are truncated,
shorter ones zero-padded), and hence the `text_tokens` field of every
full-mode record has that length. -/
theorem text_tokens_padded_to_fixed_length (ds : GrandConjoinedDataset) (fuel i : Nat) :
    (∀ txt tok, ds.fetchTextAt fuel i = some (txt, tok) →
      tok.length = ds.max_solo_text_length) ∧
    (∀ r, ds.only_paired = false → ds.getItem fuel i = some r →
      ∃ tok, List.lookup "text_tokens" r = some (.toks tok) ∧
        tok.length = ds.max_solo_text_length) := by
  have hfetch : ∀ j txt tok, ds.fetchTextAt fuel j = some (txt, tok) →
      tok.length = ds.max_solo_text_length := by
    intro j txt tok h
    obtain ⟨k, _, hsome, _⟩ := fetchTextAt_spec ds fuel j (txt, tok) h
    simp only [fetchOne] at hsome
    split at hsome
    · cases hsome
    · cases hsome
    · split at hsome
      · cases hsome
      · split at hsome
        · cases hsome
        · cases hsome
          exact padTrunc_length _ _
  refine ⟨fun txt tok h => hfetch i txt tok h, ?_⟩
  intro r hop h
  simp only [getItem] at h
  split at h
  · cases h
  · rename_i snt hsnt
    simp only [hop, Bool.false_eq_true, if_false] at h
    split at h
    · cases h
    · rename_i p txt txt_tok hft
      split at h
      · cases h
      · rename_i sp hsp
        cases h
        refine ⟨txt_tok, ?_, hfetch _ txt txt_tok hft⟩
        simp [fullRecord, List.lookup]

/-- C9 witness: the record `Wds.getItem 2 0` carries `text_tokens` of length
`Wds.max_solo_text_length = 4`. -/
theorem text_tokens_padded_to_fixed_length_witness :
    ∃ tok, List.lookup "text_tokens" WdsRec0 = some (.toks tok) ∧
      tok.length = Wds.max_solo_text_length :=
  (text_tokens_padded_to_fixed_length Wds 2 0).2 WdsRec0 rfl (by decide)

/-- C4: `__getitem__` addresses each sub-dataset at the index wrapped modulo
that sub-dataset's own length; consequently every index `i`, including one at
or beyond a sub-dataset's length, successfully addresses all three sources
(given items of the expected shape and at least one acceptable text
position).  The wrapped addressing appears in the `get?` hypotheses, and the
returned record indeed carries the items found there. -/
theorem getItem_wraps_each_subdataset (ds : GrandConjoinedDataset) (i : Nat)
    (hop : ds.only_paired = false) (hcol : ds.collate = true)
    (tseq : List Int) (wav : List (List Int)) (pth txtp : String)
    (hsnt : ds.speech_and_text.get? (i % ds.speech_and_text.length) =
      some (.tup tseq wav pth txtp))
    (sp : SpeechItem) (hsp : ds.speech.get? (i % ds.speech.length) = some sp)
    (j : Nat) (hj : j < ds.text.length) (hacc : (ds.fetchOne j).isSome) :
    ∃ r, ds.getItem ds.text.length i = some r ∧
      List.lookup "paired_file" r = some (.vstr pth) ∧
      List.lookup "speech_file" r = some (.vstr sp.path) := by
  obtain ⟨k, hk, heq⟩ := fetchOne_reach ds hj (i % ds.text.length)
  have hs : (ds.fetchTextAt ds.text.length (i % ds.text.length)).isSome :=
    fetchTextAt_some_of_exists ds _ _ ⟨k, hk, by rw [heq]; exact hacc⟩
  obtain ⟨⟨txt, tok⟩, hft⟩ := Option.isSome_iff_exists.mp hs
  refine ⟨fullRecord ds
      { real_text := txtp, padded_text := tseq, text_lengths := tseq.length,
        wav := wav, wav_lengths := lastDim wav, filenames := pth } txt tok sp,
    ?_, ?_, ?_⟩
  · rw [List.get?_eq_getElem?] at hsnt hsp
    simp [getItem, fetch_snt_at, hsnt, hcol, hop, hft, hsp]
  · simp [fullRecord, List.lookup]
  · simp [fullRecord, List.lookup]

/-- C4 witness: in `Wds` the index 5 exceeds all three corpus sizes (1, 2
and 2) and wraps to positions 0, 1 and 1 of the three sources. -/
theorem getItem_wraps_each_subdataset_witness :
    ∃ r, Wds.getItem Wds.text.length 5 = some r ∧
      List.lookup "paired_file" r = some (.vstr "p.wav") ∧
      List.lookup "speech_file" r =
        some (.vstr (SpeechItem.path { clip := [[7]], clip_lengths := 1, path := "s1.wav" })) :=
  getItem_wraps_each_subdataset Wds 5 rfl rfl [1] [[2, 3]] "p.wav" "hello" (by decide)
    { clip := [[7]], clip_lengths := 1, path := "s1.wav" } (by decide) 1 (by decide) (by decide)

/-- C6: in full mode, the `speech_audio` entry of the returned record is the
unpaired clip truncated along its last dimension to at most
`max_solo_audio_length` samples, and `speech_audio_lengths` is clamped into
`[0, max_solo_audio_length]`. -/
theorem speech_audio_truncated_and_clamped (ds : GrandConjoinedDataset) (fuel i : Nat)
    (r : List (String × Value)) (hop : ds.only_paired = false)
    (h : ds.getItem fuel i = some r) :
    ∃ a L, List.lookup "speech_audio" r = some (.audio a) ∧
      (∀ row ∈ a, row.length ≤ ds.max_solo_audio_length) ∧
      List.lookup "speech_audio_lengths" r = some (.vlen L) ∧
      0 ≤ L ∧ L ≤ (ds.max_solo_audio_length : Int) := by
  simp only [getItem] at h
  split at h
  · cases h
  · rename_i snt hsnt
    simp only [hop, Bool.false_eq_true, if_false] at h
    split at h
    · cases h
    · rename_i p txt txt_tok hft
      split at h
      · cases h
      · rename_i sp hsp
        cases h
        refine ⟨sp.clip.map (fun row => row.take ds.max_solo_audio_length),
          clamp sp.clip_lengths 0 ds.max_solo_audio_length, ?_, ?_, ?_, ?_, ?_⟩
        · simp [fullRecord, List.lookup]
        · intro row hrow
          simp only [List.mem_map] at hrow
          obtain ⟨row0, _, hrow0⟩ := hrow
          rw [← hrow0]
          simp [List.length_take]
        · simp [fullRecord, List.lookup]
        · exact le_max_left 0 _
        · exact max_le (Int.ofNat_nonneg _) (min_le_right _ _)

/-- C6 witness: `Wds.getItem 2 0` carries the clip `[[4, 5]]` (truncated from
`[[4, 5, 6]]` to `max_solo_audio_length = 2` samples) and the clamped
length 2. -/
theorem speech_audio_truncated_and_clamped_witness :
    ∃ a L, List.lookup "speech_audio" WdsRec0 = some (.audio a) ∧
      (∀ row ∈ a, row.length ≤ Wds.max_solo_audio_length) ∧
      List.lookup "speech_audio_lengths" WdsRec0 = some (.vlen L) ∧
      0 ≤ L ∧ L ≤ (Wds.max_solo_audio_length : Int) :=
  speech_audio_truncated_and_clamped Wds 2 0 WdsRec0 rfl (by decide)

end GrandConjoinedDataset

/-! ## Claims about `DownsampleDataset` -/

/-- A small non-lmdb `DownsampleDataset` in the train phase with random
cropping and JPEG corruption enabled. -/
def Wdd : DownsampleDataset :=
  { data_type := "img"
    doCrop := true
    paths_GT := ["g0.png", "g1.png"]
    sizes_GT := []
    paths_LQ := ["l0.png"]
    sizes_LQ := []
    data_sz_mismatch_ok := true
    phase := "train"
    scale := 2
    target_size := 8
    color := none
    use_flip := true
    use_rot := false
    use_compression_artifacts := true }

/-- A small lmdb `DownsampleDataset` with mismatched list lengths allowed:
one GT image but two LQ images. -/
def WddL : DownsampleDataset :=
  { data_type := "lmdb"
    doCrop := false
    paths_GT := ["g0"]
    sizes_GT := ["4_4"]
    paths_LQ := ["l0", "l1"]
    sizes_LQ := ["4_4", "4_4"]
    data_sz_mismatch_ok := true
    phase := "train"
    scale := 2
    target_size := 8
    color := none
    use_flip := false
    use_rot := false
    use_compression_artifacts := false }

namespace DownsampleDataset

/-- Provenance of the pre-processed HQ image: it is derived from the GT
path, whatever the phase and color options. -/
theorem srcPath_gtPre (ds : DownsampleDataset) (gtp : String) (res : Option (List Nat)) :
    (gtPre ds gtp res).srcPath = gtp := by
  simp only [gtPre]
  split <;> split <;> simp [ImgExpr.srcPath]

/-- The train-phase branch preserves the provenance of the LQ image. -/
theorem srcPath_trainPair_fst (ds : DownsampleDataset) (r : ItemRand) (lq gt : ImgExpr) :
    (trainPair ds r lq gt).1.srcPath = lq.srcPath := by
  simp only [trainPair]
  split <;> simp [ImgExpr.srcPath]

/-- The train-phase branch preserves the provenance of the HQ image. -/
theorem srcPath_trainPair_snd (ds : DownsampleDataset) (r : ItemRand) (lq gt : ImgExpr) :
    (trainPair ds r lq gt).2.srcPath = gt.srcPath := by
  simp only [trainPair]
  split <;> simp [ImgExpr.srcPath]

/-- C7: every record `__getitem__` returns maps the key `LQ` (conventionally
the model input) to the tensor derived from the HQ/GT image, the key `GT`
(conventionally the expected output) to the tensor derived from the LQ
image, and the key `PIX` to the downsampled image derived from the same
HQ-derived expression; the path keys expose the wrapped path lookups. -/
theorem getItem_swaps_hq_and_lq (ds : DownsampleDataset) (r : ItemRand) (o : ShapeFacts)
    (index : Nat) (rec : List (String × DVal)) (h : ds.getItem r o index = some rec) :
    ∃ gtp lqp eGT eLQ,
      ds.paths_GT.get? (index % ds.paths_GT.length) = some gtp ∧
      ds.paths_LQ.get? (index % ds.paths_LQ.length) = some lqp ∧
      rec = [("LQ", DVal.img (ImgExpr.to_tensor eGT)),
             ("GT", DVal.img (ImgExpr.fromNumpyTranspose eLQ)),
             ("PIX", DVal.img (ImgExpr.to_tensor
               (ImgExpr.resizeDown (o.H / ds.scale) (o.W / ds.scale) eGT))),
             ("LQ_path", DVal.path lqp),
             ("GT_path", DVal.path gtp)] ∧
      eGT.srcPath = gtp ∧ eLQ.srcPath = lqp := by
  simp only [getItem] at h
  split at h
  · cases h
  · rename_i GT_path hGT
    split at h
    · cases h
    · rename_i resGT hresGT
      split at h
      · cases h
      · rename_i LQ_path hLQ
        split at h
        · cases h
        · rename_i resLQ hresLQ
          simp only [buildRec] at h
          split at h
          · cases h
          · cases h
            refine ⟨GT_path, LQ_path, _, _, hGT, hLQ, rfl, ?_, ?_⟩
            · by_cases ha : ds.use_compression_artifacts <;>
                by_cases hc3 : o.gtChannels3 <;>
                by_cases ht : ds.phase = "train" <;>
                by_cases hdc : ds.doCrop <;>
                simp [ha, hc3, ht, hdc, trainPair, ImgExpr.srcPath, srcPath_gtPre]
            · by_cases hc3 : o.gtChannels3 <;>
                by_cases ht : ds.phase = "train" <;>
                by_cases hdc : ds.doCrop <;>
                simp [hc3, ht, hdc, trainPair, ImgExpr.srcPath]

/-- Fixed random draws for the witnesses. -/
def Wr0 : ItemRand :=
  { rnd_h := 0, rnd_w := 0, flip := false, rot := false, qf := 77 }

/-- Fixed image-shape facts for the witnesses. -/
def Wo0 : ShapeFacts :=
  { trainAssertOk := true, gtChannels3 := true, H := 32, W := 32 }

/-- The HQ-derived expression in the record `Wdd.getItem Wr0 Wo0 0`. -/
def WddEGT : ImgExpr :=
  ImgExpr.jpeg 77 (ImgExpr.toPILu8 (ImgExpr.cvtColorBGR2RGB
    (ImgExpr.augment false false (ImgExpr.crop 0 0 16 (ImgExpr.read "g0.png" none)))))

/-- The LQ-derived expression in the record `Wdd.getItem Wr0 Wo0 0`. -/
def WddELQ : ImgExpr :=
  ImgExpr.cvtColorBGR2RGB
    (ImgExpr.augment false false (ImgExpr.crop 0 0 8 (ImgExpr.read "l0.png" none)))

/-- The record `Wdd.getItem Wr0 Wo0 0` evaluates to. -/
def WddRec0 : List (String × DVal) :=
  [("LQ", DVal.img (ImgExpr.to_tensor WddEGT)),
   ("GT", DVal.img (ImgExpr.fromNumpyTranspose WddELQ)),
   ("PIX", DVal.img (ImgExpr.to_tensor (ImgExpr.resizeDown 16 16 WddEGT))),
   ("LQ_path", DVal.path "l0.png"),
   ("GT_path", DVal.path "g0.png")]

/-- C7 witness: the record at index 0 of `Wdd`, with the swapped keys and
the stated provenance. -/
theorem getItem_swaps_hq_and_lq_witness :
    ∃ gtp lqp eGT eLQ,
      Wdd.paths_GT.get? (0 % Wdd.paths_GT.length) = some gtp ∧
      Wdd.paths_LQ.get? (0 % Wdd.paths_LQ.length) = some lqp ∧
      WddRec0 = [("LQ", DVal.img (ImgExpr.to_tensor eGT)),
             ("GT", DVal.img (ImgExpr.fromNumpyTranspose eLQ)),
             ("PIX", DVal.img (ImgExpr.to_tensor
               (ImgExpr.resizeDown (Wo0.H / Wdd.scale) (Wo0.W / Wdd.scale) eGT))),
             ("LQ_path", DVal.path lqp),
             ("GT_path", DVal.path gtp)] ∧
      eGT.srcPath = gtp ∧ eLQ.srcPath = lqp :=
  getItem_swaps_hq_and_lq Wdd Wr0 Wo0 0 WddRec0 (by decide)

/-- C8: construction raises exactly when the GT path list is empty, the LQ
path list is empty, or the two lists have different lengths while
`mismatched_Data_OK` is not set. -/
theorem init_raises_iff (ds : DownsampleDataset) :
    (∃ msg, ds.init = .error msg) ↔
      (ds.paths_GT = [] ∨ ds.paths_LQ = [] ∨
        (ds.data_sz_mismatch_ok = false ∧ ds.paths_LQ.length ≠ ds.paths_GT.length)) := by
  constructor
  · rintro ⟨msg, hmsg⟩
    by_contra hcon
    push_neg at hcon
    obtain ⟨h1, h2, h3⟩ := hcon
    rw [init, if_neg h1, if_neg h2, if_neg (fun hc => hc.2 (h3 hc.1))] at hmsg
    cases hmsg
  · intro hcases
    rcases hcases with h | h | h
    · exact ⟨_, by rw [init, if_pos h]⟩
    · by_cases h1 : ds.paths_GT = []
      · exact ⟨_, by rw [init, if_pos h1]⟩
      · exact ⟨_, by rw [init, if_neg h1, if_pos h]⟩
    · by_cases h1 : ds.paths_GT = []
      · exact ⟨_, by rw [init, if_pos h1]⟩
      · by_cases h2 : ds.paths_LQ = []
        · exact ⟨_, by rw [init, if_neg h1, if_pos h2]⟩
        · exact ⟨_, by rw [init, if_neg h1, if_neg h2, if_pos h]⟩

/-- C8 witness: emptying the GT path list of `Wdd` makes construction
raise. -/
theorem init_raises_iff_witness :
    ∃ msg, DownsampleDataset.init { Wdd with paths_GT := [] } = .error msg :=
  (init_raises_iff { Wdd with paths_GT := [] }).mpr (Or.inl rfl)

/-- C10: with lmdb data the size lists are indexed with the raw index while
the path lists wrap, and `__len__` is the maximum of the two path-list
lengths; so when the lists have different lengths, every index from the
shorter list's length up to `__len__` fails with an out-of-bounds size
lookup instead of wrapping. -/
theorem lmdb_raw_size_index_out_of_bounds (ds : DownsampleDataset)
    (r : ItemRand) (o : ShapeFacts) (index : Nat)
    (hty : ds.data_type = "lmdb")
    (hszGT : ds.sizes_GT.length = ds.paths_GT.length)
    (hszLQ : ds.sizes_LQ.length = ds.paths_LQ.length)
    (hlo : min ds.paths_GT.length ds.paths_LQ.length ≤ index)
    (hhi : index < ds.dlen) :
    ds.dlen = max ds.paths_GT.length ds.paths_LQ.length ∧
      ds.getItem r o index = none := by
  refine ⟨rfl, ?_⟩
  rcases le_total ds.paths_GT.length ds.paths_LQ.length with hle | hle
  · have hGTnone : resolutionFor ds ds.sizes_GT index = none := by
      rw [resolutionFor, if_pos hty, List.get?_eq_none.mpr (by omega)]
    simp only [getItem]
    split
    · rfl
    · rw [hGTnone]
  · have hLQnone : resolutionFor ds ds.sizes_LQ index = none := by
      rw [resolutionFor, if_pos hty, List.get?_eq_none.mpr (by omega)]
    simp only [getItem]
    split
    · rfl
    · split
      · rfl
      · split
        · rfl
        · rw [hLQnone]

/-- C10 witness: in `WddL` (GT list of length 1, LQ list of length 2) the
index 1 lies below `__len__ = 2` but the lookup fails. -/
theorem lmdb_raw_size_index_out_of_bounds_witness :
    WddL.dlen = max WddL.paths_GT.length WddL.paths_LQ.length ∧
      WddL.getItem Wr0 Wo0 1 = none :=
  lmdb_raw_size_index_out_of_bounds WddL Wr0 Wo0 1 (by decide) (by decide) (by decide)
    (by decide) (by decide)

end DownsampleDataset

end DLAS
